import Mathlib

/-!
# Verification of the g-scrape fetch-and-orchestration core

Shallow embedding of the fetch/orchestration layer of `g-scrape/main_scraper.py`:
the `Game` item record, the proxy/identity pool (`ProxyManager.get_random_proxy`),
the three fetch strategies of `AdvancedScraper`, the orchestrator
(`MainGameScraper.run_scrapers_parallel`), the deduplicator
(`MainGameScraper.deduplicate_games`), and the reporting step
(`MainGameScraper.print_stats`, `MainGameScraper.save_results`).

Python strings are Lean `String`s, Python `list`/`dict` are Lean `List`s
(a `dict` as an association list with insertion-order semantics), Python `int`
is `Int`, and any code path that can raise an exception is embedded as an
`Option`-valued function, `none` standing for "an exception was raised".
-/

namespace GScrape

/-- The `Game` dataclass (`main_scraper.py` lines 49-69).  The Python `float`
field `rating` is modelled as `Int`: in every code path relevant to the claims
it carries its default `0.0` and is never computed with, so the carrier only
has to support equality.  `date_scraped` is filled by `__post_init__` from the
wall clock; creation sites in this embedding take it as an explicit argument. -/
structure Game where
  name : String
  url : String
  source : String
  embed_url : String := ""
  iframe_code : String := ""
  image_url : String := ""
  description : String := ""
  category : String := ""
  tags : List String := []
  play_count : Int := 0
  rating : Int := 0
  date_scraped : String := ""
deriving Repr, DecidableEq

/-- Python `s.lower()`: lower-case the string character by character.  (The
character-list formulation keeps every definition below kernel-evaluable on
concrete inputs.) -/
def strLower (s : String) : String :=
  String.mk (s.data.map Char.toLower)

/-- Python `s.startswith(pat)` / the prefix tests of the source, on the
character-list representation. -/
def strHasPrefix (s pat : String) : Bool :=
  pat.data.isPrefixOf s.data

/-- The dedup key built at `main_scraper.py` line 1095:
`game_id = f"{game.name.lower()}_{game.url}"` — the lower-cased name and the
URL joined by a literal underscore. -/
def gameId (g : Game) : String :=
  strLower g.name ++ "_" ++ g.url

/-- The loop body of `MainGameScraper.deduplicate_games` (lines 1090-1098):
walk the merged list, keep a `seen` set of `game_id` keys, append a game to the
output exactly when its key has not been seen, and record the key. -/
def dedupGo (seen : List String) : List Game → List Game
  | [] => []
  | g :: rest =>
    if gameId g ∈ seen then dedupGo seen rest
    else g :: dedupGo (gameId g :: seen) rest

/-- `MainGameScraper.deduplicate_games` (lines 1086-1101) as a pure function
from the merged collection to the retained collection (the method reassigns
`self.all_games` to this value). -/
def deduplicate_games (games : List Game) : List Game :=
  dedupGo [] games

/-! ### Identity / proxy pool -/

/-- `random.choice(seq)`: raises `IndexError` on an empty sequence, otherwise
returns an element.  The pseudo-random draw is supplied as a natural number
`pick`, reduced modulo the pool size. -/
def randomChoice (pool : List String) (pick : Nat) : Option String :=
  pool[pick % pool.length]?

/-- `ProxyManager.get_random_proxy` (`main_scraper.py` lines 102-113).  An
empty pool short-circuits to the empty mapping `{}` before `random.choice` is
reached; otherwise the chosen proxy is installed under both the `http` and
`https` keys (the `socks`-prefixed branch of the source builds the same
mapping as the general branch, and is kept here for fidelity).  A `none`
result stands for an uncaught exception. -/
def get_random_proxy (proxies : List String) (pick : Nat) :
    Option (List (String × String)) :=
  if proxies = [] then some []
  else
    match randomChoice proxies pick with
    | none => none
    | some proxy =>
      if strHasPrefix proxy "socks" then some [("http", proxy), ("https", proxy)]
      else some [("http", proxy), ("https", proxy)]

/-! ### Fetch engine -/

/-- What the transport layer hands back to one fetch attempt: a response with
an HTTP status code and body text, a timeout of the request, or any other
raised exception (connection refused, DNS failure, TLS failure, ...). -/
inductive TransportResult where
  | ok (status : Nat) (text : String)
  | timeout
  | exn
deriving Repr, DecidableEq

/-- Substring test on character lists: `containsSub pat cs` is true when `pat`
occurs contiguously inside `cs` (the semantics of Python's `in` on strings). -/
def containsSub (pat : List Char) : List Char → Bool
  | [] => pat.isEmpty
  | c :: rest => pat.isPrefixOf (c :: rest) || containsSub pat rest

/-- Python `pat in s` for strings. -/
def strContains (s pat : String) : Bool :=
  containsSub pat.data s.data

/-- The block-indicator scan at `main_scraper.py` line 171:
`any(indicator in response.text.lower() for indicator in
['captcha', 'cloudflare', 'access denied'])`. -/
def hasBlockIndicator (text : String) : Bool :=
  ["captcha", "cloudflare", "access denied"].any fun ind =>
    strContains (strLower text) ind

/-- `AdvancedScraper.scrape_with_requests` (lines 153-179) as a function of
the transport layer's answer.  The pre-request delay, header randomization and
proxy selection have no bearing on the returned value and are not modelled.
`response.raise_for_status()` raises for status codes `>= 400`; every raised
exception is caught by the enclosing `try` and becomes `None`.  A response
that passes `raise_for_status` but matches a block indicator also becomes
`None`; only an unblocked body is returned. -/
def scrape_with_requests : TransportResult → Option String
  | .ok status text =>
    if 400 ≤ status then none
    else if hasBlockIndicator text then none
    else some text
  | .timeout => none
  | .exn => none

/-- `AdvancedScraper.scrape_with_selenium` (lines 181-214) as a function of
what the scripted browser produced.  Driver construction, navigation and the
DOM-ready wait can each raise (modelled by `.timeout` / `.exn`, both caught
and turned into `None`); on success the rendered `page_source` is returned
with no inspection of its content — no status code exists and no block scan
is performed. -/
def scrape_with_selenium : TransportResult → Option String
  | .ok _ text => some text
  | .timeout => none
  | .exn => none

/-- `AdvancedScraper.scrape_with_cloudscraper` (lines 216-225) as a function
of the challenge-solving client's answer.  `response.text` is returned
directly: no `raise_for_status`, no block-indicator scan; only a raised
exception (caught by the `try`) yields `None`. -/
def scrape_with_cloudscraper : TransportResult → Option String
  | .ok _ text => some text
  | .timeout => none
  | .exn => none

/-! ### Orchestrator -/

/-- What `future.result(timeout=600)` delivers for one scraper at
`main_scraper.py` line 1074: either the job's returned item list, or a raised
exception (the job's own exception re-raised by the future, or
`concurrent.futures.TimeoutError`).  A job that raises after appending items
to its own `self.games` accumulator still raises out of `future.result`; the
`err` constructor records those already-produced items to state theorems
about them, but the orchestrator has no access to them. -/
inductive JobResult where
  | ok (items : List Game)
  | err (partialItems : List Game)
deriving Repr, DecidableEq

/-- One registered extraction job: its `name` attribute and the outcome of its
`scrape()` run. -/
structure Job where
  name : String
  result : JobResult
deriving Repr, DecidableEq

/-- Orchestrator state: the `all_games` accumulator and the `scraping_stats`
dict of `MainGameScraper` (lines 1059-1060), the dict as an association list
in insertion order. -/
structure OrchState where
  all_games : List Game
  scraping_stats : List (String × Nat)
deriving Repr, DecidableEq

/-- Python dict assignment `d[k] = v`: overwrite in place when the key exists,
append otherwise (insertion order preserved). -/
def dictSet (d : List (String × Nat)) (k : String) (v : Nat) :
    List (String × Nat) :=
  if d.any (fun p => p.1 == k) then
    d.map fun p => if p.1 == k then (k, v) else p
  else d ++ [(k, v)]

/-- The result-collection loop body of `run_scrapers_parallel`
(lines 1072-1080): on a normal future, extend `all_games` with the job's items
and record their count; when `future.result` raises (job exception or
timeout), record a count of `0` and extend nothing — the `except` branch
never touches `all_games`. -/
def collectResult (st : OrchState) (j : Job) : OrchState :=
  match j.result with
  | .ok items =>
    { all_games := st.all_games ++ items
      scraping_stats := dictSet st.scraping_stats j.name items.length }
  | .err _ =>
    { all_games := st.all_games
      scraping_stats := dictSet st.scraping_stats j.name 0 }

/-- `MainGameScraper.run_scrapers_parallel` (lines 1062-1080): futures are
created and then collected in registration order, starting from the empty
accumulator and empty stats dict. -/
def run_scrapers_parallel (jobs : List Job) : OrchState :=
  jobs.foldl collectResult ⟨[], []⟩

/-- The items a list of jobs contributes to `all_games`: the concatenation,
in registration order, of the item lists of the jobs whose future returned
normally; a failed or timed-out job contributes nothing.  (Characterization
helper for theorem statements, not part of the embedding.) -/
def okItems : List Job → List Game
  | [] => []
  | j :: rest =>
    (match j.result with | .ok items => items | .err _ => []) ++ okItems rest

/-- The count recorded in `scraping_stats` for one job: the length of its
returned list on success, `0` when its future raised.  (Characterization
helper.) -/
def jobCount (j : Job) : Nat :=
  match j.result with
  | .ok items => items.length
  | .err _ => 0

/-! ### Reporting -/

/-- The fields assembled by `MainGameScraper.print_stats` (lines 1140-1161).
The percentage is the Python float `games_with_embed/total_games*100`; its
exact value is irrelevant to the claims, so it is carried here as the
`Nat`-rounded quotient — what matters is that evaluating it divides by
`total_games`. -/
structure StatsReport where
  total_games : Nat
  games_with_embed : Nat
  embed_percent : Nat
  by_source : List (String × Nat)
  sample : List String
deriving Repr, DecidableEq

/-- `MainGameScraper.print_stats` (lines 1140-1161) as the report it logs.
Python truthiness of `g.iframe_code` is non-emptiness of the string.  When
`total_games = 0` the expression `games_with_embed/total_games*100` at line
1150 raises `ZeroDivisionError`, modelled as `none`; otherwise every step is
total and the report is produced. -/
def print_stats (games : List Game) (stats : List (String × Nat)) :
    Option StatsReport :=
  let total := games.length
  let withEmbed := (games.filter fun g => g.iframe_code ≠ "").length
  if total = 0 then none
  else
    some { total_games := total
           games_with_embed := withEmbed
           embed_percent := withEmbed * 100 / total
           by_source := stats
           sample := (games.take 10).map Game.name }

/-- The `metadata` object written by `MainGameScraper.save_results`
(lines 1113-1118): `total_games` is the length of the (post-dedup)
`all_games` list and `sources` is the `scraping_stats` dict, copied as-is. -/
def save_results_metadata (st : OrchState) : Nat × List (String × Nat) :=
  (st.all_games.length, st.scraping_stats)

/-- `deduplicate_games` as it acts on the orchestrator state: the method
reassigns `self.all_games` and reads or writes nothing else — in particular
`self.scraping_stats` does not occur in its body (lines 1086-1101). -/
def deduplicate_state (st : OrchState) : OrchState :=
  { all_games := deduplicate_games st.all_games
    scraping_stats := st.scraping_stats }

/-! ### The Poki extraction job's per-element pipeline -/

/-- `urllib.parse.urljoin`, restricted to the cases this code path exercises:
an href that is already absolute (carries an `http` or `https` scheme) is
returned unchanged; an empty href resolves to the base; otherwise the href is
resolved against the base.  Every concrete input used in the theorems below
takes the absolute branch, so the claims do not depend on the relative-path
details of the stdlib routine. -/
def urljoin (base url : String) : String :=
  if url = "" then base
  else if strHasPrefix url "http://" || strHasPrefix url "https://" then url
  else base ++ "/" ++ url

/-- One game container element from Poki's page, reduced to what
`PokiScraper.scrape` reads from it: the text of the title element (if one was
found), the `href` of the first anchor (if any), and the `src` of the first
image (if any). -/
structure PokiElement where
  nameText : Option String
  href : Option String
  imgSrc : Option String
deriving Repr, DecidableEq

/-- The constructor call `Game(name="", url="", source=self.name)` at
`main_scraper.py` lines 319-323: the record as it exists the moment it is
created, before any field assignment.  `ts` is the `datetime.now()` value
`__post_init__` stores into `date_scraped`. -/
def pokiInitialGame (ts : String) : Game :=
  { name := "", url := "", source := "Poki", date_scraped := ts }

/-- Python `s.rstrip('/')`: drop every trailing slash. -/
def rstripSlash (s : String) : String :=
  String.mk ((s.data.reverse.dropWhile fun c => c == '/').reverse)

/-- `game.url.rstrip('/').split('/')[-1]` at line 350: the last
slash-separated segment of the URL.  `str.split` always returns a non-empty
list, so the `[-1]` index never fails; `getLastD` mirrors that totality. -/
def pokiSlug (url : String) : String :=
  ((rstripSlash url).splitOn "/").getLastD ""

/-- The fallback iframe markup constructed at lines 350-352 when the game
page yielded no iframe. -/
def pokiConstructedEmbed (url : String) : String :=
  "<iframe src=\"https://poki.com/embed/" ++ pokiSlug url ++
    "\" width=\"100%\" height=\"100%\" frameborder=\"0\" allowfullscreen></iframe>"

/-- One iteration of the element loop in `PokiScraper.scrape`
(lines 316-354): create the record, then assign `name`, `url` and `image_url`
from the element, and — when both `name` and `url` are (truthy) non-empty —
fetch the game page and assign `iframe_code` from its first iframe or from
the constructed embed fallback; `fetched` is the `scrape_with_requests`
result for the game page (`none` when that fetch failed, in which case
`iframe_code` keeps its value).  Returns the record appended to `self.games`,
or `none` when the `if game.name and game.url` guard rejects the element. -/
def pokiProcessElement (e : PokiElement) (fetched : Option (List String))
    (ts : String) : Option Game :=
  let g0 := pokiInitialGame ts
  let g1 := match e.nameText with
    | some n => { g0 with name := n }
    | none => g0
  let g2 := match e.href with
    | some h => { g1 with url := urljoin "https://poki.com" h }
    | none => g1
  let g3 := match e.imgSrc with
    | some s => { g2 with image_url := urljoin "https://poki.com" s }
    | none => g2
  if g3.name ≠ "" ∧ g3.url ≠ "" then
    some (match fetched with
      | some (iframe :: _) => { g3 with iframe_code := iframe }
      | some [] => { g3 with iframe_code := pokiConstructedEmbed g3.url }
      | none => g3)
  else none

/-! ### Concrete sample data

Concrete records and job registries used by the counterexample and witness
theorems below.  `gFooA`, `gFooB`, `gBarB` are the two-job example of the
specification's end-to-end test (job `A` producing `Foo`/`http://x/1`, job `B`
producing `foo`/`http://x/1` and `Bar`/`http://x/2`). -/

def gFooA : Game := { name := "Foo", url := "http://x/1", source := "A" }

def gFooB : Game := { name := "foo", url := "http://x/1", source := "B" }

def gBarB : Game := { name := "Bar", url := "http://x/2", source := "B" }

/-- The merged collection of the end-to-end example, in the merge order the
orchestrator produces for registration order `A`, `B`. -/
def mergedAB : List Game := [gFooA, gFooB, gBarB]

/-- The two jobs of the end-to-end example, both completing normally. -/
def jobsDupEx : List Job := [⟨"A", .ok [gFooA]⟩, ⟨"B", .ok [gFooB, gBarB]⟩]

/-- A record whose name contains the underscore that `gameId` uses as key
separator. -/
def gKeyX : Game := { name := "a_b", url := "c", source := "S1" }

/-- A record with a different name and a different URL than `gKeyX`, whose
`gameId` key nevertheless coincides with `gKeyX`'s. -/
def gKeyY : Game := { name := "a", url := "b_c", source := "S2" }

def gLost1 : Game := { name := "L1", url := "http://b/1", source := "B" }

def gLost2 : Game := { name := "L2", url := "http://b/2", source := "B" }

def gLost3 : Game := { name := "L3", url := "http://b/3", source := "B" }

def gKept : Game := { name := "K", url := "http://c/1", source := "C" }

/-- A job that raises midway after having produced three items: the items sit
in its own accumulator, but its future re-raises the exception. -/
def jobB : Job := ⟨"B", .err [gLost1, gLost2, gLost3]⟩

/-- An unaffected sibling job that completes normally with one item. -/
def jobC : Job := ⟨"C", .ok [gKept]⟩

/-- A registry containing one failing job and one healthy sibling. -/
def jobsFailEx : List Job := [jobB, jobC]

/-- A page body carrying a captcha challenge marker. -/
def captchaPage : String := "Please solve the CAPTCHA to continue"

/-- An ordinary page body free of block indicators. -/
def plainPage : String := "<html><body>games list</body></html>"

def snakeElem : PokiElement :=
  ⟨some "Snake", some "https://poki.com/g/snake", none⟩

def snakeIframe : String :=
  "<iframe src=\"https://poki.com/embed/snake\"></iframe>"

/-! ## Proof development -/

/-! ### Structural lemmas about the deduplicator -/

theorem dedupGo_sublist (seen : List String) :
    ∀ games : List Game, (dedupGo seen games).Sublist games := by
  intro games
  induction games generalizing seen with
  | nil => simp [dedupGo]
  | cons g rest ih =>
    by_cases h : gameId g ∈ seen
    · simpa [dedupGo, h] using List.Sublist.cons g (ih seen)
    · simpa [dedupGo, h] using List.Sublist.cons₂ g (ih (gameId g :: seen))

theorem dedupGo_not_mem_seen :
    ∀ (games : List Game) (seen : List String) (g : Game),
      g ∈ dedupGo seen games → gameId g ∉ seen := by
  intro games
  induction games with
  | nil => intro seen g hg; simp [dedupGo] at hg
  | cons a rest ih =>
    intro seen g hg
    by_cases h : gameId a ∈ seen
    · exact ih seen g (by simpa [dedupGo, h] using hg)
    · rw [dedupGo, if_neg h] at hg
      rcases List.mem_cons.mp hg with rfl | hg'
      · exact h
      · exact fun hs => ih (gameId a :: seen) g hg' (List.mem_cons_of_mem _ hs)

theorem dedupGo_keys_nodup :
    ∀ (games : List Game) (seen : List String),
      ((dedupGo seen games).map gameId).Nodup := by
  intro games
  induction games with
  | nil => intro seen; simp [dedupGo]
  | cons a rest ih =>
    intro seen
    by_cases h : gameId a ∈ seen
    · simpa [dedupGo, h] using ih seen
    · rw [dedupGo, if_neg h]
      refine List.nodup_cons.mpr ⟨?_, ih (gameId a :: seen)⟩
      intro hmem
      rcases List.mem_map.mp hmem with ⟨g, hg, hkey⟩
      exact dedupGo_not_mem_seen rest (gameId a :: seen) g hg (by simp [hkey])

theorem dedupGo_eq_self :
    ∀ (games : List Game) (seen : List String),
      (games.map gameId).Nodup → (∀ g ∈ games, gameId g ∉ seen) →
      dedupGo seen games = games := by
  intro games
  induction games with
  | nil => intro seen _ _; rfl
  | cons a rest ih =>
    intro seen hnd hseen
    have ha : gameId a ∉ seen := hseen a (List.mem_cons_self a rest)
    rw [dedupGo, if_neg ha]
    have hnd' : (rest.map gameId).Nodup := (List.nodup_cons.mp (by simpa using hnd)).2
    have hhead : gameId a ∉ rest.map gameId :=
      (List.nodup_cons.mp (by simpa using hnd)).1
    have hrest : ∀ g ∈ rest, gameId g ∉ gameId a :: seen := by
      intro g hg hmem
      rcases List.mem_cons.mp hmem with heq | hmem'
      · exact hhead (heq ▸ List.mem_map_of_mem gameId hg)
      · exact hseen g (List.mem_cons_of_mem a hg) hmem'
    rw [ih (gameId a :: seen) hnd' hrest]

theorem dedupGo_find_first :
    ∀ (games : List Game) (seen : List String) (k : String) (g' : Game),
      games.find? (fun x => gameId x == k) = some g' → k ∉ seen →
      g' ∈ dedupGo seen games := by
  intro games
  induction games with
  | nil => intro seen k g' hfind _; simp [List.find?] at hfind
  | cons a rest ih =>
    intro seen k g' hfind hk
    by_cases hak : gameId a = k
    · have : a = g' := by
        rw [List.find?_cons_of_pos _ (by simpa using hak)] at hfind
        exact Option.some.inj hfind
      subst this
      by_cases hmem : gameId a ∈ seen
      · exact absurd (hak ▸ hmem) hk
      · rw [dedupGo, if_neg hmem]; exact List.mem_cons_self a _
    · have hfind' : rest.find? (fun x => gameId x == k) = some g' := by
        rwa [List.find?_cons_of_neg _ (by simpa using hak)] at hfind
      by_cases hmem : gameId a ∈ seen
      · rw [dedupGo, if_pos hmem]; exact ih seen k g' hfind' hk
      · rw [dedupGo, if_neg hmem]
        refine List.mem_cons_of_mem a (ih (gameId a :: seen) k g' hfind' ?_)
        intro hcon
        rcases List.mem_cons.mp hcon with heq | h'
        · exact hak heq.symm
        · exact hk h'

theorem deduplicate_sublist (games : List Game) :
    (deduplicate_games games).Sublist games :=
  dedupGo_sublist [] games

theorem deduplicate_keys_nodup (games : List Game) :
    ((deduplicate_games games).map gameId).Nodup :=
  dedupGo_keys_nodup games []


/-! ### Orchestrator characterization lemmas -/

theorem collectResult_eq (st : OrchState) (j : Job) :
    collectResult st j =
      { all_games := st.all_games ++
          (match j.result with | .ok items => items | .err _ => [])
        scraping_stats := dictSet st.scraping_stats j.name (jobCount j) } := by
  cases h : j.result with
  | ok items => simp [collectResult, jobCount, h]
  | err partialItems => simp [collectResult, jobCount, h]

theorem foldl_all_games (jobs : List Job) :
    ∀ st : OrchState,
      (jobs.foldl collectResult st).all_games = st.all_games ++ okItems jobs := by
  induction jobs with
  | nil => intro st; simp [okItems]
  | cons j rest ih =>
    intro st
    rw [List.foldl_cons, ih, collectResult_eq]
    simp [okItems]

theorem dictSet_of_not_mem (d : List (String × Nat)) (k : String) (v : Nat)
    (h : ∀ p ∈ d, p.1 ≠ k) : dictSet d k v = d ++ [(k, v)] := by
  rw [dictSet, if_neg]
  simp only [List.any_eq_true, beq_iff_eq, not_exists, not_and]
  intro p hp
  exact h p hp

theorem foldl_stats (jobs : List Job) :
    ∀ st : OrchState,
      (jobs.map Job.name).Nodup →
      (∀ j ∈ jobs, ∀ p ∈ st.scraping_stats, p.1 ≠ j.name) →
      (jobs.foldl collectResult st).scraping_stats =
        st.scraping_stats ++ jobs.map fun j => (j.name, jobCount j) := by
  induction jobs with
  | nil => intro st _ _; simp
  | cons j rest ih =>
    intro st hnd hfresh
    have hj : ∀ p ∈ st.scraping_stats, p.1 ≠ j.name :=
      hfresh j (List.mem_cons_self j rest)
    rw [List.foldl_cons, ih _ (List.nodup_cons.mp (by simpa using hnd)).2 ?fresh]
    · rw [collectResult_eq]
      simp [dictSet_of_not_mem _ _ _ hj]
    case fresh =>
      intro j' hj' p hp
      rw [collectResult_eq, dictSet_of_not_mem _ _ _ hj] at hp
      rcases List.mem_append.mp hp with hp' | hp'
      · exact hfresh j' (List.mem_cons_of_mem j hj') p hp'
      · have : p = (j.name, jobCount j) := by simpa using hp'
        subst this
        intro hcon
        exact (List.nodup_cons.mp (by simpa using hnd)).1
          (hcon ▸ List.mem_map_of_mem Job.name hj')

theorem okItems_append (a b : List Job) :
    okItems (a ++ b) = okItems a ++ okItems b := by
  induction a with
  | nil => simp [okItems]
  | cons j rest ih => simp [okItems, ih]

theorem mem_okItems {g : Game} :
    ∀ jobs : List Job, g ∈ okItems jobs →
      ∃ j ∈ jobs, ∃ items, j.result = .ok items ∧ g ∈ items := by
  intro jobs
  induction jobs with
  | nil => intro hg; simp [okItems] at hg
  | cons j rest ih =>
    intro hg
    rw [okItems] at hg
    rcases List.mem_append.mp hg with h1 | h2
    · cases hres : j.result with
      | ok items =>
        exact ⟨j, List.mem_cons_self j rest, items, hres, by rw [hres] at h1; exact h1⟩
      | err partialItems => rw [hres] at h1; simp at h1
    · obtain ⟨j', hj', items, hres, hmem⟩ := ih h2
      exact ⟨j', List.mem_cons_of_mem _ hj', items, hres, hmem⟩


/-! ## Claim theorems -/

/-- Claim C1, counterexample.  The claim says two items collapse **only if**
their case-normalized names and their URLs are both equal.  The key is built
by joining the lowered name and the URL with `_`, so the pair
(name `a_b`, url `c`) and the pair (name `a`, url `b_c`) — different names
and different URLs — produce the same key and the second record is dropped. -/
theorem dedup_collapses_distinct_name_url_pairs :
    strLower gKeyX.name ≠ strLower gKeyY.name ∧ gKeyX.url ≠ gKeyY.url ∧
    gameId gKeyX = gameId gKeyY ∧
    deduplicate_games [gKeyX, gKeyY] = [gKeyX] := by
  decide

/-- Claim C1 (amended): dedupe collapses two items exactly when their derived
keys `name.lower() + "_" + url` coincide; the retained collection is a
sublist of the merge (insertion order preserved, records unchanged), holds
each key at most once, and contains the first occurrence (in merge order) of
every key of the input. -/
theorem dedup_first_occurrence_by_key (games : List Game) :
    (deduplicate_games games).Sublist games ∧
    ((deduplicate_games games).map gameId).Nodup ∧
    (∀ g ∈ games, ∃ g' ∈ deduplicate_games games, gameId g' = gameId g) ∧
    (∀ k g', games.find? (fun x => gameId x == k) = some g' →
      g' ∈ deduplicate_games games) := by
  refine ⟨deduplicate_sublist games, deduplicate_keys_nodup games, ?_, ?_⟩
  · intro g hg
    have hsome : (games.find? fun x => gameId x == gameId g).isSome :=
      List.find?_isSome.mpr ⟨g, hg, by simp⟩
    obtain ⟨g', hg'⟩ := Option.isSome_iff_exists.mp hsome
    refine ⟨g', dedupGo_find_first games [] (gameId g) g' hg' (by simp), ?_⟩
    simpa using List.find?_some hg'
  · intro k g' hfind
    exact dedupGo_find_first games [] k g' hfind (by simp)

/-- Claim C1, witness: the specification's end-to-end example.  Jobs `A` and
`B` merge to `[Foo/http:x1, foo/http:x1, Bar/http:x2]`; dedupe retains exactly
`Foo` (the first occurrence of the shared key, coming from `A`) and `Bar`. -/
theorem dedup_first_occurrence_by_key_witness :
    deduplicate_games mergedAB = [gFooA, gBarB] ∧
    mergedAB.find? (fun x => gameId x == gameId gFooB) = some gFooA ∧
    gFooA ∈ deduplicate_games mergedAB := by
  refine ⟨by decide, by decide, ?_⟩
  exact (dedup_first_occurrence_by_key mergedAB).2.2.2 (gameId gFooB) gFooA
    (by decide)

/-- Claim C6: deduplication is idempotent — re-running `deduplicate_games` on
an already-deduplicated collection changes nothing. -/
theorem dedup_idempotent (games : List Game) :
    deduplicate_games (deduplicate_games games) = deduplicate_games games :=
  dedupGo_eq_self (deduplicate_games games) [] (deduplicate_keys_nodup games)
    (fun _ _ => by simp)

/-- Claim C2, counterexample.  A job that raises after producing three items
(`jobB`) loses all three: `future.result` re-raises, the `except` branch
records a count of `0` and never touches `all_games`, so the merged result
holds only the sibling's item — contradicting "already-produced items are not
discarded ... returned in the merged result". -/
theorem failed_job_partial_items_discarded :
    (run_scrapers_parallel jobsFailEx).all_games = [gKept] ∧
    gLost1 ∉ (run_scrapers_parallel jobsFailEx).all_games ∧
    (run_scrapers_parallel jobsFailEx).scraping_stats = [("B", 0), ("C", 1)] := by
  decide

/-- Claim C2 (amended): when a job fails internally or times out at the
future boundary, its already-produced items are discarded — the merged result
is exactly the concatenation of the successfully returned item lists, so it
coincides with the merge of the registry without the failing job — and the
failing job is recorded with count `0` (no outcome tag exists).  Sibling
jobs' items are all retained and the run itself is never aborted. -/
theorem job_failure_isolation (jobs pre post : List Job) (j : Job)
    (partialItems : List Game) (hsplit : jobs = pre ++ j :: post)
    (hres : j.result = .err partialItems) :
    (run_scrapers_parallel jobs).all_games = okItems pre ++ okItems post ∧
    (run_scrapers_parallel jobs).all_games
      = (run_scrapers_parallel (pre ++ post)).all_games ∧
    ((jobs.map Job.name).Nodup →
      (j.name, 0) ∈ (run_scrapers_parallel jobs).scraping_stats) := by
  have hall : ∀ js : List Job,
      (run_scrapers_parallel js).all_games = okItems js := by
    intro js
    simpa using foldl_all_games js ⟨[], []⟩
  refine ⟨?_, ?_, ?_⟩
  · rw [hall, hsplit, okItems_append, okItems]
    simp [hres]
  · rw [hall, hall, hsplit, okItems_append, okItems_append, okItems]
    simp [hres]
  · intro hnd
    have hstats : (run_scrapers_parallel jobs).scraping_stats
        = jobs.map fun j' => (j'.name, jobCount j') := by
      simpa [run_scrapers_parallel] using
        foldl_stats jobs ⟨[], []⟩ hnd (by intro j' _ p hp; simp at hp)
    rw [hstats]
    have hj : j ∈ jobs :=
      hsplit ▸ List.mem_append_right pre (List.mem_cons_self j post)
    have hmem : (j.name, jobCount j)
        ∈ jobs.map fun j' => (j'.name, jobCount j') :=
      List.mem_map_of_mem _ hj
    simpa [jobCount, hres] using hmem

/-- Claim C2, witness: instantiated at the registry `[jobB, jobC]` where
`jobB` raised after three items — the merged collection is the sibling's
output alone and `jobB` is recorded with count `0`. -/
theorem job_failure_isolation_witness :
    (run_scrapers_parallel jobsFailEx).all_games = okItems [] ++ okItems [jobC] ∧
    (run_scrapers_parallel jobsFailEx).all_games
      = (run_scrapers_parallel ([] ++ [jobC])).all_games ∧
    ("B", 0) ∈ (run_scrapers_parallel jobsFailEx).scraping_stats := by
  have h := job_failure_isolation jobsFailEx [] [jobC] jobB
    [gLost1, gLost2, gLost3] rfl rfl
  exact ⟨h.1, h.2.1, h.2.2 (by decide)⟩

/-- Claim C3, counterexample.  Only the plain-HTTP path scans for block
indicators: the anti-bot-bypass client (`scrape_with_cloudscraper`) and the
scripted browser (`scrape_with_selenium`) hand a captcha challenge page to
the caller as usable content, contradicting "under every fetch strategy ...
the outcome is Blocked and never Success". -/
theorem rendered_and_bypass_ignore_block_indicators :
    hasBlockIndicator captchaPage = true ∧
    scrape_with_cloudscraper (.ok 200 captchaPage) = some captchaPage ∧
    scrape_with_selenium (.ok 200 captchaPage) = some captchaPage := by
  exact ⟨by decide, rfl, rfl⟩

/-- Claim C3 (amended): for the plain-HTTP strategy only, a transport-level
success (status below 400) whose content matches a block indicator — such as
the token `captcha` in any letter case — yields `none` (blocked), never the
content. -/
theorem requests_blocked_never_success (status : Nat) (text : String)
    (hstatus : status < 400) (hblock : hasBlockIndicator text = true) :
    scrape_with_requests (.ok status text) = none := by
  simp [scrape_with_requests, Nat.not_le.mpr hstatus, hblock]

/-- Claim C3, witness: a 200 response whose body carries `CAPTCHA` is
rejected by the plain-HTTP strategy. -/
theorem requests_blocked_never_success_witness :
    (200 : Nat) < 400 ∧ hasBlockIndicator captchaPage = true ∧
    scrape_with_requests (.ok 200 captchaPage) = none :=
  ⟨by decide, by decide,
    requests_blocked_never_success 200 captchaPage (by decide) (by decide)⟩

/-- Claim C4, counterexample.  The fetch paths return `Optional[str]`, not a
tagged outcome: a blocked 200 response, a transport error and a timeout all
evaluate to the same value `none`, so a caller cannot distinguish Blocked
from TransportError from Timeout by branching on the result. -/
theorem fetch_failures_collapse_to_none :
    scrape_with_requests (.ok 200 captchaPage) = none ∧
    scrape_with_requests .exn = none ∧
    scrape_with_requests .timeout = none ∧
    scrape_with_requests (.ok 200 captchaPage) = scrape_with_requests .exn := by
  refine ⟨by decide, rfl, rfl, by decide⟩

/-- Claim C4 (amended): every strategy returns an optional value and never
lets an exception cross the fetch/job boundary — transport errors and
timeouts are caught and become `none`, and an unblocked transport success
returns exactly the fetched content — but the `none` result carries no tag
distinguishing the failure causes. -/
theorem fetch_outcome_option_contract (s : Nat) (t : String)
    (hs : s < 400) (hb : hasBlockIndicator t = false) :
    scrape_with_requests .exn = none ∧ scrape_with_requests .timeout = none ∧
    scrape_with_selenium .exn = none ∧ scrape_with_selenium .timeout = none ∧
    scrape_with_cloudscraper .exn = none ∧
    scrape_with_cloudscraper .timeout = none ∧
    scrape_with_requests (.ok s t) = some t ∧
    scrape_with_selenium (.ok s t) = some t ∧
    scrape_with_cloudscraper (.ok s t) = some t := by
  refine ⟨rfl, rfl, rfl, rfl, rfl, rfl, ?_, rfl, rfl⟩
  simp [scrape_with_requests, Nat.not_le.mpr hs, hb]

/-- Claim C4, witness: an ordinary unblocked 200 response is returned as
`some` of its body by the plain-HTTP strategy. -/
theorem fetch_outcome_option_contract_witness :
    (200 : Nat) < 400 ∧ hasBlockIndicator plainPage = false ∧
    scrape_with_requests (.ok 200 plainPage) = some plainPage :=
  ⟨by decide, by decide,
    (fetch_outcome_option_contract 200 plainPage (by decide)
      (by decide)).2.2.2.2.2.2.1⟩

/-- Claim C5: identity selection never throws — for every pool state and
every random draw the result is defined, and the empty pool yields the empty
proxy mapping (a direct, no-proxy identity) rather than an error. -/
theorem select_identity_never_throws (proxies : List String) (pick : Nat) :
    (get_random_proxy proxies pick).isSome = true ∧
    (proxies = [] → get_random_proxy proxies pick = some []) := by
  by_cases h : proxies = []
  · subst h
    exact ⟨rfl, fun _ => rfl⟩
  · refine ⟨?_, fun hc => absurd hc h⟩
    rw [get_random_proxy, if_neg h]
    have hlen : 0 < proxies.length := List.length_pos.mpr h
    have hlt : pick % proxies.length < proxies.length := Nat.mod_lt _ hlen
    have hchoice : randomChoice proxies pick
        = some (proxies.get ⟨pick % proxies.length, hlt⟩) := by
      simp [randomChoice, List.getElem?_eq_getElem hlt]
    rw [hchoice]
    by_cases hs : strHasPrefix (proxies.get ⟨pick % proxies.length, hlt⟩) "socks" <;>
      simp [hs]

/-- Claim C5, witness: selecting from the empty pool with an arbitrary draw
succeeds and returns the empty mapping. -/
theorem select_identity_never_throws_witness :
    (get_random_proxy [] 7).isSome = true ∧ get_random_proxy [] 7 = some [] :=
  ⟨(select_identity_never_throws [] 7).1,
    (select_identity_never_throws [] 7).2 rfl⟩

/-- Claim C7 (code bug): the statistics report is **not** produced on a run
with zero total items — line 1150 evaluates
`games_with_embed/total_games*100`, a `ZeroDivisionError` when `all_games` is
empty, whatever the per-source stats say; a non-empty collection is reported
fine. -/
theorem print_stats_crashes_on_zero_items :
    print_stats [] [] = none ∧
    print_stats [] [("A", 3), ("B", 0)] = none ∧
    (print_stats [gKept] [("C", 1)]).isSome = true := by
  exact ⟨rfl, rfl, by decide⟩

/-- Claim C8, counterexample.  `PokiScraper.scrape` creates each record as
`Game(name="", url="", source="Poki")` and then assigns `name`, `url`,
`image_url` and `iframe_code` on the live record: the record collected into
`self.games` differs from the record as created, contradicting "all of its
fields are fixed at creation". -/
theorem poki_record_mutated_after_creation :
    (pokiProcessElement snakeElem (some [snakeIframe]) "T").map Game.name
      = some "Snake" ∧
    (pokiInitialGame "T").name = "" ∧
    (pokiProcessElement snakeElem (some [snakeIframe]) "T").map Game.iframe_code
      = some snakeIframe ∧
    (pokiInitialGame "T").iframe_code = "" := by
  exact ⟨by decide, rfl, by decide, rfl⟩

/-- Claim C8 (amended): records are populated by field assignment inside the
extraction job after the constructor call; but once collected, they are never
changed again — every record in the orchestrator's merged collection is one
of some job's returned records, unmodified, and deduplication returns a
sublist of its input (each retained record an unchanged input record). -/
theorem records_unchanged_after_collection (jobs : List Job)
    (games : List Game) :
    (∀ g ∈ (run_scrapers_parallel jobs).all_games,
      ∃ j ∈ jobs, ∃ items, j.result = .ok items ∧ g ∈ items) ∧
    (deduplicate_games games).Sublist games ∧
    (∀ g ∈ deduplicate_games games, g ∈ games) := by
  refine ⟨?_, deduplicate_sublist games,
    fun g hg => (deduplicate_sublist games).subset hg⟩
  intro g hg
  have hall : (run_scrapers_parallel jobs).all_games = okItems jobs := by
    simpa using foldl_all_games jobs ⟨[], []⟩
  exact mem_okItems jobs (hall ▸ hg)

/-- Claim C8, witness: the one collected record of registry `[jobC]` is
exactly `jobC`'s returned record, and the survivor `Foo` of the dedup example
is an unchanged member of the merged input. -/
theorem records_unchanged_after_collection_witness :
    gKept ∈ (run_scrapers_parallel [jobC]).all_games ∧
    (∃ j ∈ [jobC], ∃ items, j.result = .ok items ∧ gKept ∈ items) ∧
    gFooA ∈ deduplicate_games mergedAB ∧ gFooA ∈ mergedAB := by
  have h := records_unchanged_after_collection [jobC] mergedAB
  exact ⟨by decide, h.1 gKept (by decide), by decide, h.2.2 gFooA (by decide)⟩

/-- Claim C9, counterexample.  The per-source statistics record a bare item
count: a job that failed after producing an item and a job that completed
with zero items leave identical orchestrator states, so no outcome
(`completed` / `timed-out` / `failed`) and no duration is recorded,
contradicting the claimed `{sourceName -> {count, outcome, durationMs}}`
shape. -/
theorem stats_record_no_outcome_or_duration :
    run_scrapers_parallel [⟨"A", .err [gFooA]⟩]
      = run_scrapers_parallel [⟨"A", .ok []⟩] ∧
    (run_scrapers_parallel [⟨"A", .err [gFooA]⟩]).scraping_stats
      = [("A", 0)] := by
  decide

/-- Claim C9 (amended): for a registry of distinctly named jobs the recorded
statistics are exactly `{sourceName -> count}` in registration order — the
returned item count for a completed job, `0` for a failed or timed-out one —
and `save_results` hands this mapping unchanged to the report metadata. -/
theorem stats_map_name_to_count (jobs : List Job)
    (h : (jobs.map Job.name).Nodup) :
    (run_scrapers_parallel jobs).scraping_stats
      = (jobs.map fun j => (j.name, jobCount j)) ∧
    (save_results_metadata (deduplicate_state (run_scrapers_parallel jobs))).2
      = (run_scrapers_parallel jobs).scraping_stats := by
  constructor
  · simpa [run_scrapers_parallel] using
      foldl_stats jobs ⟨[], []⟩ h (by intro j _ p hp; simp at hp)
  · rfl

/-- Claim C9, witness: the two-job example registry records
`A ↦ 1, B ↦ 2`. -/
theorem stats_map_name_to_count_witness :
    (run_scrapers_parallel jobsDupEx).scraping_stats
      = (jobsDupEx.map fun j => (j.name, jobCount j)) ∧
    (run_scrapers_parallel jobsDupEx).scraping_stats = [("A", 1), ("B", 2)] :=
  ⟨(stats_map_name_to_count jobsDupEx (by decide)).1, by decide⟩

/-- Claim C10: `deduplicate_games` only rewrites `all_games` — the per-source
statistics reach the saved metadata exactly as recorded at job completion —
and on the two-job example the pre-dedup per-source counts sum to `3` while
the deduplicated `total_games` written to the metadata is `2`. -/
theorem dedup_preserves_stats (st : OrchState) :
    (deduplicate_state st).scraping_stats = st.scraping_stats ∧
    (save_results_metadata (deduplicate_state st)).2 = st.scraping_stats ∧
    (save_results_metadata
        (deduplicate_state (run_scrapers_parallel jobsDupEx))).1 = 2 ∧
    ((run_scrapers_parallel jobsDupEx).scraping_stats.map Prod.snd).sum = 3 := by
  exact ⟨rfl, rfl, by decide, by decide⟩

end GScrape
